import Mathlib

/-!
Shallow embedding of the mongo-repository Go package.

The repository code is translated function by function:
  - `bson.D` / `bson.E` / `bson.M` become ordered association lists over an
    inductive BSON value type (`BsonD`, `BsonE`, `BsonValue`);
  - `primitive.ObjectID` becomes a 12-byte record, with
    `ObjectIDFromHex` / `ObjectID.hex` mirroring the driver's hex codec
    (24 hex characters per identifier);
  - the MongoDB driver (an external collaborator) is abstracted as response
    functions passed to each operation; every operation also returns the list
    of store calls it issued, so that "no store call is made" is provable;
  - `errors.Join` of the package's sentinel errors becomes a `RepoError`
    carrying the ordered list of sentinel tags plus the optional raw
    underlying error; `errors.Is` on a sentinel becomes list membership.
-/

namespace MongoRepo

/-- A 12-byte MongoDB object identifier (`primitive.ObjectID`). -/
structure ObjectID where
  bytes : List Nat
deriving DecidableEq

/-- Value of a single hexadecimal digit, lower or upper case. -/
def hexVal? (c : Char) : Option Nat :=
  if '0' ≤ c ∧ c ≤ '9' then some (c.toNat - '0'.toNat)
  else if 'a' ≤ c ∧ c ≤ 'f' then some (c.toNat - 'a'.toNat + 10)
  else if 'A' ≤ c ∧ c ≤ 'F' then some (c.toNat - 'A'.toNat + 10)
  else none

/-- Decode a hex string (as a character list) into bytes, two digits per
byte; fails on a non-hex digit or an odd length (`hex.DecodeString`). -/
def hexBytes? : List Char → Option (List Nat)
  | [] => some []
  | c1 :: c2 :: rest =>
    match hexVal? c1, hexVal? c2, hexBytes? rest with
    | some hi, some lo, some bs => some ((hi * 16 + lo) :: bs)
    | _, _, _ => none
  | _ => none

/-- `primitive.ObjectIDFromHex`: a valid identifier string is exactly 24
hexadecimal characters; anything else is malformed. -/
def ObjectIDFromHex (s : String) : Option ObjectID :=
  if s.length = 24 then (hexBytes? s.toList).map ObjectID.mk else none

/-- Lowercase hex character of a nibble. -/
def nibbleChar (n : Nat) : Char :=
  if n < 10 then Char.ofNat (Nat.add 48 n) else Char.ofNat (Nat.add 97 (n - 10))

/-- `ObjectID.Hex`: canonical lowercase hexadecimal form, two characters per
byte. -/
def ObjectID.hex (o : ObjectID) : String :=
  String.mk (o.bytes.foldr (fun b acc => nibbleChar (b / 16) :: nibbleChar (b % 16) :: acc) [])

/-- BSON values, as far as the repository constructs them. -/
inductive BsonValue where
  | str (s : String)
  | int (n : Int)
  | boolean (b : Bool)
  | oid (o : ObjectID)
  | doc (d : List (String × BsonValue))
  | array (xs : List BsonValue)

/-- `bson.E`: one (key, value) element of a filter document. -/
abbrev BsonE := String × BsonValue

/-- `bson.D`: an ordered filter document. -/
abbrev BsonD := List BsonE

/-- `FilterFunc`: a function that takes a BSON document and extends it. -/
abbrev FilterFunc := BsonD → BsonD

/-- `Eq` creates an equality filter. -/
def Eq (field : String) (value : BsonValue) : FilterFunc :=
  fun filter => filter ++ [(field, value)]

/-- `Gt` creates a greater-than filter. -/
def Gt (field : String) (value : BsonValue) : FilterFunc :=
  fun filter => filter ++ [(field, BsonValue.doc [("$gt", value)])]

/-- `Lt` creates a less-than filter. -/
def Lt (field : String) (value : BsonValue) : FilterFunc :=
  fun filter => filter ++ [(field, BsonValue.doc [("$lt", value)])]

/-- `In` creates an "in" filter. -/
def In (field : String) (values : BsonValue) : FilterFunc :=
  fun filter => filter ++ [(field, BsonValue.doc [("$in", values)])]

/-- `And` combines multiple filters with a logical AND: each child filter is
applied to a fresh empty document, the resulting elements are collected in
order, and a single `$and` element is appended to the outer document. -/
def And (filters : List FilterFunc) : FilterFunc :=
  fun filter =>
    filter ++ [("$and", BsonValue.doc (filters.foldl (fun acc f => acc ++ f []) []))]

/-- `Or` combines multiple filters with a logical OR, same shape as `And`. -/
def Or (filters : List FilterFunc) : FilterFunc :=
  fun filter =>
    filter ++ [("$or", BsonValue.doc (filters.foldl (fun acc f => acc ++ f []) []))]

/-- `Ne` creates a not-equal filter. -/
def Ne (field : String) (value : BsonValue) : FilterFunc :=
  fun filter => filter ++ [(field, BsonValue.doc [("$ne", value)])]

/-- `Lte` creates a less-than-or-equal filter. -/
def Lte (field : String) (value : BsonValue) : FilterFunc :=
  fun filter => filter ++ [(field, BsonValue.doc [("$lte", value)])]

/-- `Gte` creates a greater-than-or-equal filter. -/
def Gte (field : String) (value : BsonValue) : FilterFunc :=
  fun filter => filter ++ [(field, BsonValue.doc [("$gte", value)])]

/-- `Exists` checks if a field exists. -/
def Exists (field : String) (exists_ : Bool) : FilterFunc :=
  fun filter => filter ++ [(field, BsonValue.doc [("$exists", BsonValue.boolean exists_)])]

/-- `Regex` creates a filter for regular expression matching. -/
def Regex (field : String) (pattern : String) (opts : String) : FilterFunc :=
  fun filter =>
    filter ++ [(field, BsonValue.doc [("$regex", BsonValue.str pattern), ("$options", BsonValue.str opts)])]

/-- `TextSearch` creates a full-text search filter. -/
def TextSearch (searchTerm : String) : FilterFunc :=
  fun filter => filter ++ [("$text", BsonValue.doc [("$search", BsonValue.str searchTerm)])]

/-- The `filter := bson.D{}; for _, f := range filters { filter = f(filter) }`
loop that every filter-taking operation performs. -/
def foldFilters (filters : List FilterFunc) : BsonD :=
  filters.foldl (fun acc f => f acc) []

/-- The package's predefined sentinel errors. -/
inductive ErrTag where
  | notFound
  | duplicate
  | failedToFindByID
  | failedToFindByIDs
  | invalidDocumentID
  | failedToCreate
  | failedToUpdate
  | failedToUpdateMany
  | failedToDelete
  | failedToFindOneByFilter
  | failedToFindManyByFilter
  | failedToCreateIndex
  | failedToDeleteMany
deriving DecidableEq

/-- Errors produced by the underlying MongoDB driver. `noDocuments` is
`mongo.ErrNoDocuments`; `duplicateKey` is any error for which
`mongo.IsDuplicateKeyError` holds; `other` covers the rest (I/O, decode...). -/
inductive StoreErr where
  | noDocuments
  | duplicateKey
  | other (msg : String)
deriving DecidableEq

/-- `mongo.IsDuplicateKeyError`. -/
def isDuplicateKeyError : StoreErr → Bool
  | StoreErr.duplicateKey => true
  | _ => false

/-- The raw underlying error joined into a repository error: either a store
error or the hex-decoding error for a malformed identifier string. -/
inductive RawErr where
  | store (e : StoreErr)
  | parseHex (s : String)
deriving DecidableEq

/-- An `errors.Join` of sentinel errors plus (optionally) a raw underlying
error: the ordered list of sentinel tags, and the cause.
`errors.Is err sentinel` is membership of the sentinel in `tags`. -/
structure RepoError where
  tags : List ErrTag
  cause : Option RawErr
deriving DecidableEq

/-- `errors.Is` on a possibly-nil error against a sentinel error. -/
def errHasTag (e : Option RepoError) (t : ErrTag) : Bool :=
  match e with
  | some err => decide (t ∈ err.tags)
  | none => false

/-- `result.InsertedID`, an untyped value that may or may not be a native
object identifier. -/
inductive InsertedID where
  | objectID (o : ObjectID)
  | other (v : BsonValue)

/-- `mongo.UpdateResult` (the fields the repository reads). -/
structure UpdateResult where
  matchedCount : Int
  modifiedCount : Int
deriving DecidableEq

/-- `mongo.DeleteResult` (the field the repository reads). -/
structure DeleteResult where
  deletedCount : Int
deriving DecidableEq

/-- `options.Find()` with the setters the repository uses; a `none` field was
never set. -/
structure FindOptions where
  skip : Option Int
  limit : Option Int
  projection : Option BsonD
  sort : Option BsonD

/-- `options.Find()` with no setters applied (used by `FindByIDs`). -/
def defaultFindOptions : FindOptions := ⟨none, none, none, none⟩

/-- A cursor as the repository consumes it: the sequence of `Next`/`Decode`
outcomes, then the value of `cursor.Err()` after iteration. -/
structure Cursor (T : Type) where
  elems : List (Except StoreErr T)
  finalErr : Option StoreErr

/-- `options.IndexOptions` (the setters the package uses); a `none` field was
never set. -/
structure IndexOptions where
  unique : Option Bool
  sparse : Option Bool
  expireAfterSeconds : Option Int
  name : Option String
  partialFilterExpression : Option BsonValue
  collation : Option String
  wildcardProjection : Option BsonValue
  hidden : Option Bool
  weights : Option BsonD
  defaultLanguage : Option String

/-- `options.Index()`: the options record with nothing set. -/
def emptyIndexOptions : IndexOptions :=
  ⟨none, none, none, none, none, none, none, none, none, none⟩

/-- `IndexOption`: an option fragment over the shared options record. -/
abbrev IndexOption := IndexOptions → IndexOptions

/-- `Unique` specifies the unique option for an index. -/
def Unique (unique : Bool) : IndexOption :=
  fun opts => { opts with unique := some unique }

/-- `Sparse` specifies the sparse option for an index. -/
def Sparse (sparse : Bool) : IndexOption :=
  fun opts => { opts with sparse := some sparse }

/-- `ExpireAfterSeconds` specifies the expireAfterSeconds option for an
index. -/
def ExpireAfterSeconds (expireAfterSeconds : Int) : IndexOption :=
  fun opts => { opts with expireAfterSeconds := some expireAfterSeconds }

/-- `TTL` sets the Time-To-Live for an index. In the source the duration (in
nanoseconds) is converted via `int32(duration.Seconds())`, an IEEE-754
float64 computation; the conversion is kept abstract here as
`secondsOfDuration`, since float64 rounding is outside this embedding. -/
def TTL (secondsOfDuration : Int → Int) (duration : Int) : IndexOption :=
  fun opts => { opts with expireAfterSeconds := some (secondsOfDuration duration) }

/-- `Name` specifies the name option for an index. -/
def Name (name : String) : IndexOption :=
  fun opts => { opts with name := some name }

/-- `mongo.IndexModel`: the key document plus the options record. -/
structure IndexModel where
  keys : BsonD
  options : IndexOptions

/-- One call issued to the underlying store (the collection handle). -/
inductive StoreCall where
  | insertOne
  | findOne (filter : BsonD)
  | find (filter : BsonD) (opts : FindOptions)
  | updateByID (id : ObjectID)
  | updateManyCall (filter : BsonD) (update : BsonD)
  | deleteOne (filter : BsonD)
  | deleteManyCall (filter : BsonD)
  | createIndexCall (model : IndexModel)

/-- `Create`: insert one document; on success return the hex form of the
store-assigned object identifier. Returns the Go `(string, error)` pair plus
the list of store calls issued. -/
def Create (insertOne : Except StoreErr InsertedID) :
    (String × Option RepoError) × List StoreCall :=
  (match insertOne with
   | Except.error e =>
     if isDuplicateKeyError e then
       ("", some ⟨[ErrTag.failedToCreate, ErrTag.duplicate], some (RawErr.store e)⟩)
     else
       ("", some ⟨[ErrTag.failedToCreate], some (RawErr.store e)⟩)
   | Except.ok (InsertedID.objectID oid) => (oid.hex, none)
   | Except.ok (InsertedID.other _) =>
     ("", some ⟨[ErrTag.invalidDocumentID], none⟩),
   [StoreCall.insertOne])

/-- `FindByID`: validate the identifier, then issue one `FindOne` with the
filter `{_id: objID}`. -/
def FindByID {T : Type} (findOne : BsonD → Except StoreErr T) (id : String) :
    (Option T × Option RepoError) × List StoreCall :=
  match ObjectIDFromHex id with
  | none =>
    ((none, some ⟨[ErrTag.failedToFindByID, ErrTag.invalidDocumentID], some (RawErr.parseHex id)⟩), [])
  | some objID =>
    (match findOne [("_id", BsonValue.oid objID)] with
     | Except.error e =>
       if e = StoreErr.noDocuments then
         (none, some ⟨[ErrTag.failedToFindByID, ErrTag.notFound], some (RawErr.store e)⟩)
       else
         (none, some ⟨[ErrTag.failedToFindByID], some (RawErr.store e)⟩)
     | Except.ok v => (some v, none),
     [StoreCall.findOne [("_id", BsonValue.oid objID)]])

/-- The identifier-conversion loop of `FindByIDs`: convert every string in
order, stopping at the first malformed one (which is returned as the error). -/
def objIDsFromHex : List String → Except String (List ObjectID)
  | [] => Except.ok []
  | id :: rest =>
    match ObjectIDFromHex id with
    | none => Except.error id
    | some objID =>
      match objIDsFromHex rest with
      | Except.error s => Except.error s
      | Except.ok objIDs => Except.ok (objID :: objIDs)

/-- The `for cursor.Next { Decode }` loop: collect decoded elements in
order, stopping at the first decode error. -/
def drainCursor {T : Type} : List (Except StoreErr T) → Except StoreErr (List T)
  | [] => Except.ok []
  | Except.error e :: _ => Except.error e
  | Except.ok v :: rest =>
    match drainCursor rest with
    | Except.error e => Except.error e
    | Except.ok vs => Except.ok (v :: vs)

/-- The cursor-consumption sequence shared (verbatim, inlined) by
`FindByIDs`, `FindManyByFilter` and `Search`: decode elements until `Next` is
false, returning on the first decode error; then check `cursor.Err()`; then
treat an empty result slice as not-found. `tag` is the operation's own
sentinel. -/
def cursorResults {T : Type} (tag : ErrTag) (resp : Except StoreErr (Cursor T)) :
    List T × Option RepoError :=
  match resp with
  | Except.error e =>
    if e = StoreErr.noDocuments then
      ([], some ⟨[tag, ErrTag.notFound], some (RawErr.store e)⟩)
    else
      ([], some ⟨[tag], some (RawErr.store e)⟩)
  | Except.ok cursor =>
    match drainCursor cursor.elems with
    | Except.error e => ([], some ⟨[tag], some (RawErr.store e)⟩)
    | Except.ok results =>
      match cursor.finalErr with
      | some e => ([], some ⟨[tag], some (RawErr.store e)⟩)
      | none =>
        if results.isEmpty then ([], some ⟨[tag, ErrTag.notFound], none⟩)
        else (results, none)

/-- `FindByIDs`: convert all identifier strings (failing the whole call on
the first malformed one, before any store interaction), then issue one `Find`
with the filter `{_id: {$in: objIDs}}` and plain `options.Find()`. -/
def FindByIDs {T : Type} (find : BsonD → FindOptions → Except StoreErr (Cursor T))
    (ids : List String) : (List T × Option RepoError) × List StoreCall :=
  match objIDsFromHex ids with
  | Except.error s =>
    (([], some ⟨[ErrTag.failedToFindByIDs, ErrTag.invalidDocumentID], some (RawErr.parseHex s)⟩), [])
  | Except.ok objIDs =>
    (cursorResults ErrTag.failedToFindByIDs
       (find [("_id", BsonValue.doc [("$in", BsonValue.array (objIDs.map BsonValue.oid))])]
          defaultFindOptions),
     [StoreCall.find [("_id", BsonValue.doc [("$in", BsonValue.array (objIDs.map BsonValue.oid))])]
        defaultFindOptions])

/-- `Update`: validate the identifier, then issue `UpdateByID` with a
`{$set: model}` update; a matched count of zero is a not-found failure. -/
def Update {T : Type} (updateByID : ObjectID → T → Except StoreErr UpdateResult)
    (id : String) (model : T) : (Int × Option RepoError) × List StoreCall :=
  match ObjectIDFromHex id with
  | none =>
    ((0, some ⟨[ErrTag.failedToFindByID, ErrTag.invalidDocumentID], some (RawErr.parseHex id)⟩), [])
  | some objID =>
    (match updateByID objID model with
     | Except.error e =>
       if e = StoreErr.noDocuments then
         (0, some ⟨[ErrTag.failedToUpdate, ErrTag.notFound], some (RawErr.store e)⟩)
       else
         (0, some ⟨[ErrTag.failedToUpdate], some (RawErr.store e)⟩)
     | Except.ok result =>
       if result.matchedCount = 0 then
         (0, some ⟨[ErrTag.failedToUpdate, ErrTag.notFound], none⟩)
       else (result.modifiedCount, none),
     [StoreCall.updateByID objID])

/-- `UpdateMany`: fold the filter fragments, then issue `UpdateMany` with a
`{$set: update}` document; the modified count is returned as is (zero matches
is not an error). -/
def UpdateMany (updateManyCall : BsonD → BsonD → Except StoreErr UpdateResult)
    (update : List (String × BsonValue)) (filters : List FilterFunc) :
    (Int × Option RepoError) × List StoreCall :=
  (match updateManyCall (foldFilters filters) [("$set", BsonValue.doc update)] with
   | Except.error e =>
     if e = StoreErr.noDocuments then
       (0, some ⟨[ErrTag.failedToUpdateMany, ErrTag.notFound], some (RawErr.store e)⟩)
     else
       (0, some ⟨[ErrTag.failedToUpdateMany], some (RawErr.store e)⟩)
   | Except.ok result => (result.modifiedCount, none),
   [StoreCall.updateManyCall (foldFilters filters) [("$set", BsonValue.doc update)]])

/-- `Delete`: validate the identifier, then issue one `DeleteOne` with the
filter `{_id: objID}`; a deleted count of zero is a not-found failure. -/
def Delete (deleteOne : BsonD → Except StoreErr DeleteResult) (id : String) :
    (Int × Option RepoError) × List StoreCall :=
  match ObjectIDFromHex id with
  | none =>
    ((0, some ⟨[ErrTag.failedToFindByID, ErrTag.invalidDocumentID], some (RawErr.parseHex id)⟩), [])
  | some objID =>
    (match deleteOne [("_id", BsonValue.oid objID)] with
     | Except.error e =>
       if e = StoreErr.noDocuments then
         (0, some ⟨[ErrTag.failedToDelete, ErrTag.notFound], some (RawErr.store e)⟩)
       else
         (0, some ⟨[ErrTag.failedToDelete], some (RawErr.store e)⟩)
     | Except.ok result =>
       if result.deletedCount = 0 then
         (0, some ⟨[ErrTag.failedToDelete, ErrTag.notFound], none⟩)
       else (result.deletedCount, none),
     [StoreCall.deleteOne [("_id", BsonValue.oid objID)]])

/-- `DeleteMany`: fold the filter fragments, then issue `DeleteMany`; the
deleted count is returned as is (zero matches is not an error). -/
def DeleteMany (deleteManyCall : BsonD → Except StoreErr DeleteResult)
    (filters : List FilterFunc) : (Int × Option RepoError) × List StoreCall :=
  (match deleteManyCall (foldFilters filters) with
   | Except.error e =>
     if e = StoreErr.noDocuments then
       (0, some ⟨[ErrTag.failedToDeleteMany, ErrTag.notFound], some (RawErr.store e)⟩)
     else
       (0, some ⟨[ErrTag.failedToDeleteMany], some (RawErr.store e)⟩)
   | Except.ok result => (result.deletedCount, none),
   [StoreCall.deleteManyCall (foldFilters filters)])

/-- `FindManyByFilter`: fold the filter fragments, replace a zero limit by
the default page size 10, then issue one `Find` with skip and limit set. -/
def FindManyByFilter {T : Type}
    (find : BsonD → FindOptions → Except StoreErr (Cursor T))
    (skip limit : Int) (filters : List FilterFunc) :
    (List T × Option RepoError) × List StoreCall :=
  (cursorResults ErrTag.failedToFindManyByFilter
     (find (foldFilters filters)
        ⟨some skip, some (if limit = 0 then 10 else limit), none, none⟩),
   [StoreCall.find (foldFilters filters)
      ⟨some skip, some (if limit = 0 then 10 else limit), none, none⟩])

/-- `Search`: issue one `Find` with the `{$text: {$search: term}}` filter,
skip, limit (zero meaning the default page size 10), a textScore projection
and a descending textScore sort. -/
def Search {T : Type}
    (find : BsonD → FindOptions → Except StoreErr (Cursor T))
    (skip limit : Int) (searchTerm : String) :
    (List T × Option RepoError) × List StoreCall :=
  (cursorResults ErrTag.failedToFindManyByFilter
     (find [("$text", BsonValue.doc [("$search", BsonValue.str searchTerm)])]
        ⟨some skip, some (if limit = 0 then 10 else limit),
         some [("score", BsonValue.doc [("$meta", BsonValue.str "textScore")])],
         some [("score", BsonValue.doc [("$meta", BsonValue.str "textScore")])]⟩),
   [StoreCall.find [("$text", BsonValue.doc [("$search", BsonValue.str searchTerm)])]
      ⟨some skip, some (if limit = 0 then 10 else limit),
       some [("score", BsonValue.doc [("$meta", BsonValue.str "textScore")])],
       some [("score", BsonValue.doc [("$meta", BsonValue.str "textScore")])]⟩])

/-- The `mongo.IndexModel` that `CreateFullTextIndex` builds before calling
the store: compound text keys over the given fields, the given per-field
weights, default language (english when the argument is empty), the index
name derived from the (defaulted) language, and the sparse flag. -/
def fullTextIndexModel (keys : List (String × Int)) (lang : String) : IndexModel :=
  ⟨keys.map (fun kv => (kv.1, BsonValue.str "text")),
   { emptyIndexOptions with
      weights := some (keys.map (fun kv => (kv.1, BsonValue.int kv.2))),
      defaultLanguage := some (if lang = "" then "english" else lang),
      name := some ((if lang = "" then "english" else lang) ++ "_fts_index"),
      sparse := some true }⟩

/-- `CreateFullTextIndex`: build the compound text index keys and weights
from the field map, default the language to english when empty, name the
index from the language, mark it sparse, and issue one index creation. -/
def CreateFullTextIndex (createOne : IndexModel → Except StoreErr Unit)
    (keys : List (String × Int)) (lang : String) :
    Option RepoError × List StoreCall :=
  (match createOne (fullTextIndexModel keys lang) with
   | Except.error e => some ⟨[ErrTag.failedToCreateIndex], some (RawErr.store e)⟩
   | Except.ok _ => none,
   [StoreCall.createIndexCall (fullTextIndexModel keys lang)])

/-! Concrete store doubles on `Unit` entities, used to instantiate theorems
at concrete inputs. -/

/-- A store double whose `FindOne` always fails with a generic error. -/
def failFindOne : BsonD → Except StoreErr Unit :=
  fun _ => Except.error (StoreErr.other "boom")

/-- A store double whose `Find` always fails with a generic error. -/
def failFind : BsonD → FindOptions → Except StoreErr (Cursor Unit) :=
  fun _ _ => Except.error (StoreErr.other "boom")

/-- A store double whose `Find` returns an empty cursor with no error. -/
def emptyFind : BsonD → FindOptions → Except StoreErr (Cursor Unit) :=
  fun _ _ => Except.ok ⟨[], none⟩

/-- A store double whose `Find` returns a one-element cursor with no error. -/
def oneFind : BsonD → FindOptions → Except StoreErr (Cursor Unit) :=
  fun _ _ => Except.ok ⟨[Except.ok ()], none⟩

/-- A store double whose `UpdateByID` matches and modifies nothing. -/
def zeroUpdateByID : ObjectID → Unit → Except StoreErr UpdateResult :=
  fun _ _ => Except.ok ⟨0, 0⟩

/-- A store double whose `UpdateByID` matches and modifies one document. -/
def oneUpdateByID : ObjectID → Unit → Except StoreErr UpdateResult :=
  fun _ _ => Except.ok ⟨1, 1⟩

/-- A store double whose `UpdateMany` matches and modifies nothing. -/
def zeroUpdateMany : BsonD → BsonD → Except StoreErr UpdateResult :=
  fun _ _ => Except.ok ⟨0, 0⟩

/-- A store double whose `DeleteOne` deletes nothing. -/
def zeroDeleteOne : BsonD → Except StoreErr DeleteResult :=
  fun _ => Except.ok ⟨0⟩

/-- A store double whose `DeleteOne` deletes one document. -/
def oneDeleteOne : BsonD → Except StoreErr DeleteResult :=
  fun _ => Except.ok ⟨1⟩

/-- A store double whose `DeleteMany` deletes nothing. -/
def zeroDeleteMany : BsonD → Except StoreErr DeleteResult :=
  fun _ => Except.ok ⟨0⟩

/-- The object identifier whose 24-character hex form is all `a`. -/
def sampleOID : ObjectID := ⟨[170, 170, 170, 170, 170, 170, 170, 170, 170, 170, 170, 170]⟩

/-- The all-zero object identifier. -/
def zeroOID : ObjectID := ⟨[0, 0, 0, 0, 0, 0, 0, 0, 0, 0, 0, 0]⟩

/-! Helper lemmas shared by the claim theorems. -/

/-- Folding the append-accumulating loop of `And`/`Or` from any starting
document equals appending the concatenation of the outputs of the children on
fresh empty documents. -/
theorem foldl_append_eq_join (fs : List FilterFunc) (acc : BsonD) :
    fs.foldl (fun a f => a ++ f []) acc = acc ++ (fs.map (fun f => f [])).flatten := by
  induction fs generalizing acc with
  | nil => simp
  | cons f rest ih => simp [ih, List.append_assoc]

/-- If some identifier string in the list is malformed, the conversion loop
of `FindByIDs` fails (with some malformed member as the reported error). -/
theorem objIDsFromHex_error_of_malformed (ids : List String)
    (h : ∃ j ∈ ids, ObjectIDFromHex j = none) :
    ∃ s, objIDsFromHex ids = Except.error s := by
  induction ids with
  | nil => simp at h
  | cons hd tl ih =>
    rcases h with ⟨j, hj, hnone⟩
    rcases List.mem_cons.mp hj with rfl | hmem
    · exact ⟨j, by simp [objIDsFromHex, hnone]⟩
    · cases hh : ObjectIDFromHex hd with
      | none => exact ⟨hd, by simp [objIDsFromHex, hh]⟩
      | some o =>
        rcases ih ⟨j, hmem, hnone⟩ with ⟨s, hs⟩
        exact ⟨s, by simp [objIDsFromHex, hh, hs]⟩

/-- A cursor pipeline that reports no error reports a nonempty result list. -/
theorem cursorResults_ok_nonempty {T : Type} (tag : ErrTag)
    (resp : Except StoreErr (Cursor T)) (res : List T)
    (h : cursorResults tag resp = (res, none)) : res ≠ [] := by
  cases resp with
  | error e =>
    by_cases he : e = StoreErr.noDocuments <;>
      simp [cursorResults, he] at h
  | ok cursor =>
    cases hd : drainCursor cursor.elems with
    | error e => simp [cursorResults, hd] at h
    | ok results =>
      cases hf : cursor.finalErr with
      | some e => simp [cursorResults, hd, hf] at h
      | none =>
        by_cases hres : results.isEmpty
        · simp [cursorResults, hd, hf, hres] at h
        · simp [cursorResults, hd, hf, hres] at h
          cases results with
          | nil => simp [List.isEmpty] at hres
          | cons a l => simp [← h]

/-! Claim theorems. -/

/-- C3: for every list of child fragments and every outer accumulator,
`And` (resp. `Or`) appends exactly one clause to the outer accumulator, keyed
`$and` (resp. `$or`), whose value collects, in order, the clauses obtained by
invoking each child on a fresh empty accumulator; an empty child list yields
an empty condition array; the outer accumulator's existing clauses are
unchanged (they form an unmodified prefix). -/
theorem and_or_append_single_logical_clause (fs : List FilterFunc) (outer : BsonD) :
    MongoRepo.And fs outer
      = outer ++ [("$and", BsonValue.doc ((fs.map (fun f => f [])).flatten))] ∧
    MongoRepo.Or fs outer
      = outer ++ [("$or", BsonValue.doc ((fs.map (fun f => f [])).flatten))] ∧
    MongoRepo.And ([] : List FilterFunc) outer = outer ++ [("$and", BsonValue.doc [])] ∧
    MongoRepo.Or ([] : List FilterFunc) outer = outer ++ [("$or", BsonValue.doc [])] := by
  refine ⟨?_, ?_, ?_, ?_⟩ <;>
    simp [MongoRepo.And, MongoRepo.Or, foldl_append_eq_join]

/-- C6: for every skip and filter/search input, `FindManyByFilter` and
`Search` issue the store query with limit 10 when the limit argument is 0 and
with the limit argument itself otherwise; skip is passed through unchanged. -/
theorem find_many_search_limit_defaulting (T : Type)
    (find : BsonD → FindOptions → Except StoreErr (Cursor T))
    (skip limit : Int) (filters : List FilterFunc) (searchTerm : String) :
    (FindManyByFilter find skip limit filters).2
      = [StoreCall.find (foldFilters filters)
          ⟨some skip, some (if limit = 0 then 10 else limit), none, none⟩] ∧
    (Search find skip limit searchTerm).2
      = [StoreCall.find [("$text", BsonValue.doc [("$search", BsonValue.str searchTerm)])]
          ⟨some skip, some (if limit = 0 then 10 else limit),
           some [("score", BsonValue.doc [("$meta", BsonValue.str "textScore")])],
           some [("score", BsonValue.doc [("$meta", BsonValue.str "textScore")])]⟩] :=
  ⟨rfl, rfl⟩

/-- C7: for every field-weights map and language argument,
`CreateFullTextIndex` issues exactly one index creation whose model indexes
exactly the given field names (each mapped to `text`), carries the given
per-field weights, uses `english` when the language argument is empty, is
named `<language>_fts_index` from the (possibly defaulted) language, and is
sparse; no other index option is set. -/
theorem create_full_text_index_model (createOne : IndexModel → Except StoreErr Unit)
    (keys : List (String × Int)) (lang : String) :
    (CreateFullTextIndex createOne keys lang).2
      = [StoreCall.createIndexCall
          ⟨keys.map (fun kv => (kv.1, BsonValue.str "text")),
           ⟨none, some true, none,
            some ((if lang = "" then "english" else lang) ++ "_fts_index"),
            none, none, none, none,
            some (keys.map (fun kv => (kv.1, BsonValue.int kv.2))),
            some (if lang = "" then "english" else lang)⟩⟩] :=
  rfl

/-- C1: for every store behavior, a malformed identifier string passed to
`FindByID`, `FindByIDs`, `Update` or `Delete` makes the operation fail with
an error whose layers include the invalid-identifier sentinel, and the list
of store calls issued is empty. -/
theorem invalid_identifier_fails_before_store (T : Type)
    (findOne : BsonD → Except StoreErr T)
    (find : BsonD → FindOptions → Except StoreErr (Cursor T))
    (updateByID : ObjectID → T → Except StoreErr UpdateResult)
    (deleteOne : BsonD → Except StoreErr DeleteResult)
    (id : String) (ids : List String) (model : T)
    (hid : ObjectIDFromHex id = none)
    (hids : ∃ j ∈ ids, ObjectIDFromHex j = none) :
    (FindByID findOne id).2 = [] ∧
    errHasTag (FindByID findOne id).1.2 ErrTag.invalidDocumentID = true ∧
    (FindByIDs find ids).2 = [] ∧
    errHasTag (FindByIDs find ids).1.2 ErrTag.invalidDocumentID = true ∧
    (Update updateByID id model).2 = [] ∧
    errHasTag (Update updateByID id model).1.2 ErrTag.invalidDocumentID = true ∧
    (Delete deleteOne id).2 = [] ∧
    errHasTag (Delete deleteOne id).1.2 ErrTag.invalidDocumentID = true := by
  obtain ⟨s, hs⟩ := objIDsFromHex_error_of_malformed ids hids
  refine ⟨?_, ?_, ?_, ?_, ?_, ?_, ?_, ?_⟩ <;>
    simp [FindByID, FindByIDs, Update, Delete, hid, hs, errHasTag]

/-- Witness for C1 at the malformed identifier `nope`. -/
theorem invalid_identifier_fails_before_store_witness :
    (FindByID failFindOne "nope").2 = [] ∧
    errHasTag (FindByID failFindOne "nope").1.2 ErrTag.invalidDocumentID = true ∧
    (FindByIDs failFind ["nope"]).2 = [] ∧
    errHasTag (FindByIDs failFind ["nope"]).1.2 ErrTag.invalidDocumentID = true ∧
    (Update zeroUpdateByID "nope" ()).2 = [] ∧
    errHasTag (Update zeroUpdateByID "nope" ()).1.2 ErrTag.invalidDocumentID = true ∧
    (Delete zeroDeleteOne "nope").2 = [] ∧
    errHasTag (Delete zeroDeleteOne "nope").1.2 ErrTag.invalidDocumentID = true :=
  invalid_identifier_fails_before_store Unit failFindOne failFind zeroUpdateByID
    zeroDeleteOne "nope" ["nope"] () (by decide) ⟨"nope", by decide, by decide⟩

/-- C2: for every store state in which the identifier/filter matches zero
documents (the store reports matched/deleted count 0), `Update` and `Delete`
on a valid identifier fail with a not-found error and return count 0, while
`UpdateMany` and `DeleteMany` return count 0 with no error. -/
theorem zero_match_not_found_asymmetry (T : Type)
    (updateByID : ObjectID → T → Except StoreErr UpdateResult)
    (deleteOne : BsonD → Except StoreErr DeleteResult)
    (updateManyCall : BsonD → BsonD → Except StoreErr UpdateResult)
    (deleteManyCall : BsonD → Except StoreErr DeleteResult)
    (id : String) (o : ObjectID) (model : T)
    (update : List (String × BsonValue)) (filters : List FilterFunc)
    (ru rum : UpdateResult) (rd rdm : DeleteResult)
    (hid : ObjectIDFromHex id = some o)
    (hu : updateByID o model = Except.ok ru) (hru : ru.matchedCount = 0)
    (hd : deleteOne [("_id", BsonValue.oid o)] = Except.ok rd) (hrd : rd.deletedCount = 0)
    (hum : updateManyCall (foldFilters filters) [("$set", BsonValue.doc update)] = Except.ok rum)
    (hrum : rum.modifiedCount = 0)
    (hdm : deleteManyCall (foldFilters filters) = Except.ok rdm) (hrdm : rdm.deletedCount = 0) :
    Update updateByID id model
      = ((0, some ⟨[ErrTag.failedToUpdate, ErrTag.notFound], none⟩), [StoreCall.updateByID o]) ∧
    Delete deleteOne id
      = ((0, some ⟨[ErrTag.failedToDelete, ErrTag.notFound], none⟩),
         [StoreCall.deleteOne [("_id", BsonValue.oid o)]]) ∧
    UpdateMany updateManyCall update filters
      = ((0, none), [StoreCall.updateManyCall (foldFilters filters) [("$set", BsonValue.doc update)]]) ∧
    DeleteMany deleteManyCall filters
      = ((0, none), [StoreCall.deleteManyCall (foldFilters filters)]) := by
  refine ⟨?_, ?_, ?_, ?_⟩ <;>
    simp [Update, Delete, UpdateMany, DeleteMany, hid, hu, hru, hd, hrd, hum, hrum, hdm, hrdm]

/-- Witness for C2 at the valid identifier of 24 `a`s with stores matching
zero documents. -/
theorem zero_match_not_found_asymmetry_witness :
    Update zeroUpdateByID "aaaaaaaaaaaaaaaaaaaaaaaa" ()
      = ((0, some ⟨[ErrTag.failedToUpdate, ErrTag.notFound], none⟩), [StoreCall.updateByID sampleOID]) ∧
    Delete zeroDeleteOne "aaaaaaaaaaaaaaaaaaaaaaaa"
      = ((0, some ⟨[ErrTag.failedToDelete, ErrTag.notFound], none⟩),
         [StoreCall.deleteOne [("_id", BsonValue.oid sampleOID)]]) ∧
    UpdateMany zeroUpdateMany [] []
      = ((0, none), [StoreCall.updateManyCall (foldFilters []) [("$set", BsonValue.doc [])]]) ∧
    DeleteMany zeroDeleteMany []
      = ((0, none), [StoreCall.deleteManyCall (foldFilters [])]) :=
  zero_match_not_found_asymmetry Unit zeroUpdateByID zeroDeleteOne zeroUpdateMany
    zeroDeleteMany "aaaaaaaaaaaaaaaaaaaaaaaa" sampleOID () [] [] ⟨0, 0⟩ ⟨0, 0⟩ ⟨0⟩ ⟨0⟩
    (by decide) rfl rfl rfl rfl rfl rfl rfl rfl

/-- C5: `Create` returns the hex form of the store-assigned identifier on
success; a duplicate-key store error yields an error layered with both the
create-failed and the duplicate sentinels (plus the raw store error); any
other store error yields an error layered with create-failed and the raw
store error, and without the duplicate layer. -/
theorem create_duplicate_vs_other_errors (e : StoreErr) (o : ObjectID)
    (he : isDuplicateKeyError e = false) :
    Create (Except.error StoreErr.duplicateKey)
      = (("", some ⟨[ErrTag.failedToCreate, ErrTag.duplicate],
           some (RawErr.store StoreErr.duplicateKey)⟩), [StoreCall.insertOne]) ∧
    Create (Except.error e)
      = (("", some ⟨[ErrTag.failedToCreate], some (RawErr.store e)⟩), [StoreCall.insertOne]) ∧
    errHasTag (Create (Except.error e)).1.2 ErrTag.duplicate = false ∧
    Create (Except.ok (InsertedID.objectID o)) = ((o.hex, none), [StoreCall.insertOne]) := by
  refine ⟨rfl, ?_, ?_, rfl⟩ <;> simp [Create, he, errHasTag]

/-- Witness for C5 at a generic (non-duplicate) store error and the all-zero
identifier. -/
theorem create_duplicate_vs_other_errors_witness :
    Create (Except.error StoreErr.duplicateKey)
      = (("", some ⟨[ErrTag.failedToCreate, ErrTag.duplicate],
           some (RawErr.store StoreErr.duplicateKey)⟩), [StoreCall.insertOne]) ∧
    Create (Except.error (StoreErr.other "io"))
      = (("", some ⟨[ErrTag.failedToCreate], some (RawErr.store (StoreErr.other "io"))⟩),
         [StoreCall.insertOne]) ∧
    errHasTag (Create (Except.error (StoreErr.other "io"))).1.2 ErrTag.duplicate = false ∧
    Create (Except.ok (InsertedID.objectID zeroOID)) = ((zeroOID.hex, none), [StoreCall.insertOne]) :=
  create_duplicate_vs_other_errors (StoreErr.other "io") zeroOID (by decide)

/-- C9: when the store accepts the insert but reports an inserted identifier
that is not a native object identifier, `Create` returns the empty string
together with an invalid-identifier error, not a success; and whenever
`Create` returns a non-empty string, the store reported a native object
identifier, the string is its hexadecimal form, and the error is nil. -/
theorem create_inserted_id_integrity (v : BsonValue) (resp : Except StoreErr InsertedID)
    (h : (Create resp).1.1 ≠ "") :
    Create (Except.ok (InsertedID.other v))
      = (("", some ⟨[ErrTag.invalidDocumentID], none⟩), [StoreCall.insertOne]) ∧
    ∃ o, resp = Except.ok (InsertedID.objectID o) ∧ (Create resp).1 = (o.hex, none) := by
  refine ⟨rfl, ?_⟩
  cases resp with
  | error e =>
    by_cases hdup : isDuplicateKeyError e <;> simp [Create, hdup] at h
  | ok iid =>
    cases iid with
    | objectID o => exact ⟨o, rfl, rfl⟩
    | other w => simp [Create] at h

/-- Witness for C9: the all-zero identifier hex-encodes to a 24-character
string, so its insertion is reported as that non-empty string. -/
theorem create_inserted_id_integrity_witness :
    Create (Except.ok (InsertedID.other (BsonValue.str "x")))
      = (("", some ⟨[ErrTag.invalidDocumentID], none⟩), [StoreCall.insertOne]) ∧
    ∃ o, (Except.ok (InsertedID.objectID zeroOID) : Except StoreErr InsertedID)
           = Except.ok (InsertedID.objectID o) ∧
         (Create (Except.ok (InsertedID.objectID zeroOID))).1 = (o.hex, none) :=
  create_inserted_id_integrity (BsonValue.str "x")
    (Except.ok (InsertedID.objectID zeroOID)) (by decide)

/-- C10: `FindByIDs` on an empty identifier list issues the in-set query
over the empty identifier set; when the store answers that query with an
empty cursor (as an in-set match over the empty set matches no documents), the
call decodes zero results and fails with a not-found error; and in general
`FindByIDs` never returns a nil error together with an empty result list. -/
theorem find_by_ids_empty_never_succeeds (T : Type)
    (find : BsonD → FindOptions → Except StoreErr (Cursor T)) :
    (FindByIDs find ([] : List String)).2
      = [StoreCall.find [("_id", BsonValue.doc [("$in", BsonValue.array [])])]
          defaultFindOptions] ∧
    (find [("_id", BsonValue.doc [("$in", BsonValue.array [])])] defaultFindOptions
        = Except.ok ⟨[], none⟩ →
      (FindByIDs find ([] : List String)).1
        = ([], some ⟨[ErrTag.failedToFindByIDs, ErrTag.notFound], none⟩)) ∧
    ∀ (ids : List String) (res : List T),
      (FindByIDs find ids).1 = (res, none) → res ≠ [] := by
  refine ⟨rfl, ?_, ?_⟩
  · intro hfind
    simp [FindByIDs, objIDsFromHex, hfind, cursorResults, drainCursor]
  · intro ids res h
    cases hids : objIDsFromHex ids with
    | error s => simp [FindByIDs, hids] at h
    | ok objIDs =>
      simp only [FindByIDs, hids] at h
      exact cursorResults_ok_nonempty _ _ res h

/-- Witness for C10: an empty-cursor store double makes the empty call fail
not-found, and a one-element store double shows a successful call is
nonempty. -/
theorem find_by_ids_empty_never_succeeds_witness :
    (FindByIDs emptyFind ([] : List String)).1
      = ([], some ⟨[ErrTag.failedToFindByIDs, ErrTag.notFound], none⟩) ∧
    ([()] : List Unit) ≠ [] :=
  ⟨(find_by_ids_empty_never_succeeds Unit emptyFind).2.1 rfl,
   (find_by_ids_empty_never_succeeds Unit oneFind).2.2
     ["aaaaaaaaaaaaaaaaaaaaaaaa"] [()] (by decide)⟩

/-- C4 counterexample: `Update` and `Delete` on the malformed identifier
`zz` do fail, but the error of `Update` does not carry the update-failed
sentinel and the error of `Delete` does not carry the delete-failed sentinel
(both carry the find-by-id-failed sentinel of a different operation). -/
theorem update_delete_malformed_id_wrong_kind :
    (Update oneUpdateByID "zz" ()).1.2 ≠ none ∧
    errHasTag (Update oneUpdateByID "zz" ()).1.2 ErrTag.failedToUpdate = false ∧
    (Delete oneDeleteOne "zz").1.2 ≠ none ∧
    errHasTag (Delete oneDeleteOne "zz").1.2 ErrTag.failedToDelete = false ∧
    errHasTag (Update oneUpdateByID "zz" ()).1.2 ErrTag.failedToFindByID = true ∧
    errHasTag (Delete oneDeleteOne "zz").1.2 ErrTag.failedToFindByID = true := by
  decide

/-- C4 amended: every failing `Update`/`Delete` returns an error composed of
an operation kind, where applicable the not-found or invalid-identifier
sub-kind, and the raw underlying error, each layer testable independently by
membership — but on a malformed identifier the operation kind carried is
find-by-id-failed (joined with invalid-identifier and the parse error), not
update-failed/delete-failed; store-error failures do carry update-failed
resp. delete-failed together with the raw store error, adding not-found when
the store reports no documents. -/
theorem update_delete_error_composition (T : Type)
    (updateByID : ObjectID → T → Except StoreErr UpdateResult)
    (deleteOne : BsonD → Except StoreErr DeleteResult)
    (id : String) (model : T) (o : ObjectID) (e : StoreErr) :
    (ObjectIDFromHex id = none →
      (Update updateByID id model).1.2
        = some ⟨[ErrTag.failedToFindByID, ErrTag.invalidDocumentID], some (RawErr.parseHex id)⟩ ∧
      (Delete deleteOne id).1.2
        = some ⟨[ErrTag.failedToFindByID, ErrTag.invalidDocumentID], some (RawErr.parseHex id)⟩) ∧
    (ObjectIDFromHex id = some o → updateByID o model = Except.error e →
      (Update updateByID id model).1.2
        = some ⟨if e = StoreErr.noDocuments then [ErrTag.failedToUpdate, ErrTag.notFound]
                else [ErrTag.failedToUpdate], some (RawErr.store e)⟩) ∧
    (ObjectIDFromHex id = some o → deleteOne [("_id", BsonValue.oid o)] = Except.error e →
      (Delete deleteOne id).1.2
        = some ⟨if e = StoreErr.noDocuments then [ErrTag.failedToDelete, ErrTag.notFound]
                else [ErrTag.failedToDelete], some (RawErr.store e)⟩) := by
  refine ⟨fun hid => ⟨?_, ?_⟩, fun hid hu => ?_, fun hid hd => ?_⟩
  · simp [Update, hid]
  · simp [Delete, hid]
  · by_cases he : e = StoreErr.noDocuments <;> simp [Update, hid, hu, he]
  · by_cases he : e = StoreErr.noDocuments <;> simp [Delete, hid, hd, he]

/-- Witness for the amended C4: the malformed case at `zz`, and the
store-error case at the all-`a` identifier with a no-documents error. -/
theorem update_delete_error_composition_witness :
    ((Update oneUpdateByID "zz" ()).1.2
        = some ⟨[ErrTag.failedToFindByID, ErrTag.invalidDocumentID], some (RawErr.parseHex "zz")⟩ ∧
     (Delete oneDeleteOne "zz").1.2
        = some ⟨[ErrTag.failedToFindByID, ErrTag.invalidDocumentID], some (RawErr.parseHex "zz")⟩) ∧
    (Update (fun _ _ => Except.error StoreErr.noDocuments) "aaaaaaaaaaaaaaaaaaaaaaaa" ()).1.2
        = some ⟨[ErrTag.failedToUpdate, ErrTag.notFound], some (RawErr.store StoreErr.noDocuments)⟩ ∧
    (Delete (fun _ => Except.error StoreErr.noDocuments) "aaaaaaaaaaaaaaaaaaaaaaaa").1.2
        = some ⟨[ErrTag.failedToDelete, ErrTag.notFound], some (RawErr.store StoreErr.noDocuments)⟩ := by
  refine ⟨(update_delete_error_composition Unit oneUpdateByID oneDeleteOne "zz" () sampleOID
            (StoreErr.other "x")).1 (by decide), ?_, ?_⟩
  · have h := (update_delete_error_composition Unit
      (fun _ _ => Except.error StoreErr.noDocuments)
      (fun _ => Except.error StoreErr.noDocuments)
      "aaaaaaaaaaaaaaaaaaaaaaaa" () sampleOID StoreErr.noDocuments).2.1 (by decide) rfl
    simpa using h
  · have h := (update_delete_error_composition Unit
      (fun _ _ => Except.error StoreErr.noDocuments)
      (fun _ => Except.error StoreErr.noDocuments)
      "aaaaaaaaaaaaaaaaaaaaaaaa" () sampleOID StoreErr.noDocuments).2.2 (by decide) rfl
    simpa using h

end MongoRepo
